import Mathlib

namespace Poly

/-!
Shallow embedding of `scripts/build-pages.js` (the static-page builder of the
`poly` repository): the cache-file model, the refresh-policy predicates, the
source fetchers and the per-run orchestration.  Dynamically typed JSON values
are modelled by an inductive `Json` type together with JavaScript truthiness;
machine numbers are modelled by exact rationals `ℚ`, with
`Math.round x = ⌊x + 1/2⌋` (round half toward +∞, as in JavaScript).
-/

/-- JSON values, modelling the dynamically typed contents of `data/cache.json`
and of the normalized records stored into it. -/
inductive Json where
  | jnull : Json
  | jbool : Bool → Json
  | jnum : ℚ → Json
  | jstr : String → Json
  | jarr : List Json → Json
  | jobj : List (String × Json) → Json

/-- JavaScript truthiness of a JSON value (`!v` in the source negates this).
`null`, `false`, `0` and the empty string are falsy; arrays and objects are
always truthy. -/
def truthy : Json → Bool
  | .jnull => false
  | .jbool b => b
  | .jnum q => if q = 0 then false else true
  | .jstr s => if s = "" then false else true
  | .jarr _ => true
  | .jobj _ => true

/-- Property access `j[k]` on a JSON value: defined only on objects, `none`
models JavaScript `undefined`. -/
def getField (j : Json) (k : String) : Option Json :=
  match j with
  | .jobj fs => (fs.find? (fun p => p.1 == k)).map (fun p => p.2)
  | _ => none

/-- Truthiness of an optional JSON value; `none` models an absent key
(`undefined`), which is falsy. -/
def entryPresent : Option Json → Bool
  | some j => truthy j
  | none => false

/-- Field access through an optional JSON value, modelling `cache.k1.k2` where
the first step may already be `undefined`. -/
def jsonField (v : Option Json) (k : String) : Option Json :=
  v.bind (fun j => getField j k)

/-- Strict inequality `v !== s` of a possibly-absent JSON value against a
string: only a string of equal contents compares equal. -/
def strictNeStr : Option Json → String → Bool
  | some (.jstr t), s => t != s
  | _, _ => true

/-- JavaScript truthiness of an optional string credential: absent or empty
keys are falsy (`if (!key) return null` in the fetchers). -/
def keyPresent : Option String → Bool
  | some s => s != ""
  | none => false

/-- The in-memory cache store: the three keys of `data/cache.json` that the
script reads and writes (`cache.weather`, `cache.tides2d`, `cache.astronomy`).
`none` models a missing key, `some .jnull` an explicit `null`. -/
structure CacheStore where
  weather : Option Json
  tides2d : Option Json
  astronomy : Option Json

/-- `readCache`: parse result of `data/cache.json` projected onto the three
keys the script uses.  `none` input models a missing file or malformed JSON
(`JSON.parse` threw); the catch branch returns the literal object
`{ weather: null, tides2d: null, astronomy: null }`. -/
def readCache (file : Option Json) : CacheStore :=
  match file with
  | some j =>
      { weather := getField j "weather"
        tides2d := getField j "tides2d"
        astronomy := getField j "astronomy" }
  | none =>
      { weather := some .jnull
        tides2d := some .jnull
        astronomy := some .jnull }

/-- `withinActive`: local hour in the inclusive window `[6, 22]`
(`h >= 6 && h <= 22`). -/
def withinActive (h : ℕ) : Bool :=
  decide (6 ≤ h) && decide (h ≤ 22)

/-- `shouldFetchWeather`: `withinActive() || !cache.weather`. -/
def shouldFetchWeather (h : ℕ) (c : CacheStore) : Bool :=
  withinActive h || !entryPresent c.weather

/-- `shouldFetchAstronomy`: force flag, then seed-if-absent, then the daily
06:00 gate guarded by the day-stamp comparison
`cache.astronomy._date !== today`. -/
def shouldFetchAstronomy (force : Bool) (h : ℕ) (today : String) (c : CacheStore) : Bool :=
  if force then true
  else if !entryPresent c.astronomy then true
  else (h == 6) && strictNeStr (jsonField c.astronomy "_date") today

/-- `shouldFetchTides2D`: same shape as the astronomy policy, pinned to the
02:00 local hour and the `tides2d` key. -/
def shouldFetchTides2D (force : Bool) (h : ℕ) (today : String) (c : CacheStore) : Bool :=
  if force then true
  else if !entryPresent c.tides2d then true
  else (h == 2) && strictNeStr (jsonField c.tides2d "_date") today

/-- `Math.round`: round half toward positive infinity, `⌊x + 1/2⌋`. -/
def jsRound (q : ℚ) : ℤ :=
  ⌊q + 1 / 2⌋

/-- The `current_weather` block of an Open-Meteo response; `none` models a
missing field (`?? 0` supplies the default in the fetcher). -/
structure WeatherResp where
  temperature : Option ℚ
  windspeed : Option ℚ
  winddirection : Option ℚ
  weathercode : Option ℚ

/-- Normalized weather record (`ts` embeds as the `_ts` JSON key). -/
structure WeatherRec where
  c : ℤ
  f : ℤ
  kmh : ℤ
  mph : ℤ
  winddir : ℤ
  icon : String
  ts : String

/-- The fixed weather-code-to-icon map; an absent or unmapped code falls back
to `clear-day` via `map[w.weathercode] || 'clear-day'`. -/
def weatherIcon (code : Option ℚ) : String :=
  match code with
  | none => "clear-day"
  | some q =>
      if q = 0 then "clear-day"
      else if q = 1 then "partly-cloudy"
      else if q = 2 then "cloudy"
      else if q = 3 then "rain"
      else if q = 45 then "fog"
      else if q = 51 then "rain"
      else if q = 61 then "rain"
      else if q = 71 then "snow"
      else if q = 95 then "thunderstorm"
      else "clear-day"

/-- `fetchWeather` (normalization part): each raw quantity defaults to `0`,
Celsius and km/h are rounded first, and the converted units are computed from
those already-rounded values. -/
def fetchWeather (resp : WeatherResp) (ts : String) : WeatherRec :=
  let c := jsRound (resp.temperature.getD 0)
  let f := jsRound ((c : ℚ) * 9 / 5 + 32)
  let kmh := jsRound (resp.windspeed.getD 0)
  let mph := jsRound ((kmh : ℚ) * (621371 / 1000000))
  let dir := jsRound (resp.winddirection.getD 0)
  { c := c, f := f, kmh := kmh, mph := mph, winddir := dir,
    icon := weatherIcon resp.weathercode, ts := ts }

/-- JavaScript `v || d` on an optional string: absent or empty falls back. -/
def orStr (v : Option String) (d : String) : String :=
  match v with
  | some s => if s = "" then d else s
  | none => d

/-- Replace maximal runs of whitespace by a single hyphen (the
`replace(/\s+/g,'-')` step of the moon-phase slug); the flag records whether
the previous character was whitespace. -/
def hyphRun (inWs : Bool) : List Char → List Char
  | [] => []
  | c :: cs =>
      if c.isWhitespace then
        if inWs then hyphRun true cs else '-' :: hyphRun true cs
      else c :: hyphRun false cs

/-- Moon-phase icon slug: lower-case, whitespace runs become hyphens. -/
def slugify (s : String) : String :=
  String.mk (hyphRun false s.toLower.data)

/-- The `astronomy.astro` block of a WeatherAPI response. -/
structure AstroResp where
  sunrise : Option String
  sunset : Option String
  moonPhase : Option String

/-- Normalized astronomy record (`date` embeds as the `_date` JSON key). -/
structure AstronomyRec where
  sunrise : String
  sunset : String
  phaseName : String
  phaseIcon : String
  date : String

/-- `fetchAstronomy` (normalization part, after the credential guard): string
fields default via `||`, the icon is the slug of the phase label, and the
day-stamp is the current local date. -/
def fetchAstronomyCore (resp : AstroResp) (today : String) : AstronomyRec :=
  let phaseName := orStr resp.moonPhase "—"
  let phaseIcon := orStr (some (slugify phaseName)) "full-moon"
  { sunrise := orStr resp.sunrise "--:--", sunset := orStr resp.sunset "--:--",
    phaseName := phaseName, phaseIcon := phaseIcon, date := today }

/-- One raw Stormglass tide extreme (`j.data` element); `height` is `none`
when the field is missing (`Number(t.height || 0)` supplies `0`). -/
structure RawTide where
  type : String
  time : String
  height : Option ℚ

/-- One normalized tide event: the raw fields plus the event's own local
calendar day `ymd = ymdLocal(new Date(t.time))`. -/
structure TideEvent where
  type : String
  time : String
  height : ℚ
  ymd : String

/-- The `list` built by the tide fetcher from the response data; `ymdOf`
stands for the time-zone-aware `ymdLocal ∘ Date` conversion (an external
Clock collaborator). -/
def mkEvents (data : Option (List RawTide)) (ymdOf : String → String) : List TideEvent :=
  (data.getD []).map (fun t =>
    { type := t.type, time := t.time, height := t.height.getD 0, ymd := ymdOf t.time })

/-- The bucketing loop of the tide fetcher: push each event onto `today` when
its day equals `todayKey`, else onto `tomorrow` when it equals `tomorrowKey`,
else drop it. -/
def bucketTides (todayKey tomorrowKey : String) (l : List TideEvent) :
    List TideEvent × List TideEvent :=
  l.foldl (fun acc e =>
    if e.ymd == todayKey then (acc.1 ++ [e], acc.2)
    else if e.ymd == tomorrowKey then (acc.1, acc.2 ++ [e])
    else acc) ([], [])

/-- Insert an event into an already sorted list, after all events of equal or
smaller epoch (so the overall sort is stable, as `Array.prototype.sort` is). -/
def insertTide (epochOf : String → ℤ) (e : TideEvent) : List TideEvent → List TideEvent
  | [] => [e]
  | x :: xs =>
      if epochOf x.time ≤ epochOf e.time then x :: insertTide epochOf e xs
      else e :: x :: xs

/-- Stable sort by event epoch, modelling
`sort((a, b) => new Date(a.time) - new Date(b.time))`; `epochOf` stands for
the epoch-milliseconds reading of the ISO time string. -/
def sortTides (epochOf : String → ℤ) (l : List TideEvent) : List TideEvent :=
  l.foldl (fun acc e => insertTide epochOf e acc) []

/-- Ascending order on tide events by epoch of their time string — the order
the second draft's comparator sorts by. -/
def tideLE (epochOf : String → ℤ) (a b : TideEvent) : Prop :=
  epochOf a.time ≤ epochOf b.time

/-- `Number.prototype.toFixed(1)` on a rational, up to binary floating-point
artifacts: one decimal digit, rounding half away from zero. -/
def toFixed1 (q : ℚ) : String :=
  let sgn := if q < 0 then "-" else ""
  let t : ℤ := ⌊|q| * 10 + 1 / 2⌋
  sgn ++ toString (t / 10) ++ "." ++ toString (t % 10)

/-- The `fmtRow` display line of one tide event; `fmtTimeF` stands for the
time-zone-aware `fmtTime` Clock collaborator. -/
def fmtRow (fmtTimeF : String → String) (e : TideEvent) : String :=
  (if e.type == "high" then "↑ High" else "↓ Low") ++ " " ++ fmtTimeF e.time
    ++ " — " ++ toFixed1 e.height ++ " m"

/-- Normalized tide record (`date` embeds as the `_date` JSON key). -/
structure TidesRec where
  date : String
  todayKey : String
  tomorrowKey : String
  todayItems : List String
  tomorrowItems : List String
  rawToday : List TideEvent
  rawTomorrow : List TideEvent

/-- `fetchTides2Days`, first draft (the version at the top of
`scripts/build-pages.js`): bucket the events of the response by their own
local day; the buckets keep the response order and are neither sorted nor
capped.  `data = none` models a response without a usable `data` array
(`j.data || []`). -/
def fetchTides2Days (key : Option String) (data : Option (List RawTide))
    (todayKey tomorrowKey : String) (ymdOf fmtTimeF : String → String) :
    Option TidesRec :=
  if keyPresent key then
    let list := mkEvents data ymdOf
    let byDay := bucketTides todayKey tomorrowKey list
    some { date := todayKey, todayKey := todayKey, tomorrowKey := tomorrowKey,
           todayItems := byDay.1.map (fmtRow fmtTimeF),
           tomorrowItems := byDay.2.map (fmtRow fmtTimeF),
           rawToday := byDay.1, rawTomorrow := byDay.2 }
  else none

/-- `fetchTides2Days`, second draft (the version below the draft separator):
same bucketing, then each bucket is sorted ascending by event epoch and
capped with `slice(0, 4)` before formatting. -/
def fetchTides2DaysV2 (key : Option String) (data : Option (List RawTide))
    (todayKey tomorrowKey : String) (ymdOf fmtTimeF : String → String)
    (epochOf : String → ℤ) : Option TidesRec :=
  if keyPresent key then
    let list := mkEvents data ymdOf
    let byDay := bucketTides todayKey tomorrowKey list
    let capToday := (sortTides epochOf byDay.1).take 4
    let capTomorrow := (sortTides epochOf byDay.2).take 4
    some { date := todayKey, todayKey := todayKey, tomorrowKey := tomorrowKey,
           todayItems := capToday.map (fmtRow fmtTimeF),
           tomorrowItems := capTomorrow.map (fmtRow fmtTimeF),
           rawToday := capToday, rawTomorrow := capTomorrow }
  else none

/-- Number of outbound HTTP requests one call of `fetchTides2Days` performs:
its body contains exactly one `fetch`, issued unconditionally after the
credential guard, and no retry of any kind. -/
def tidesRequestCount (key : Option String) : ℕ :=
  if keyPresent key then 1 else 0

/-- The JSON value stored into `cache.weather` for a fetched record. -/
def WeatherRec.toJson (w : WeatherRec) : Json :=
  .jobj [("c", .jnum (w.c : ℚ)), ("f", .jnum (w.f : ℚ)), ("kmh", .jnum (w.kmh : ℚ)),
         ("mph", .jnum (w.mph : ℚ)), ("winddir", .jnum (w.winddir : ℚ)),
         ("icon", .jstr w.icon), ("_ts", .jstr w.ts)]

/-- The JSON value stored into `cache.astronomy` for a fetched record. -/
def AstronomyRec.toJson (a : AstronomyRec) : Json :=
  .jobj [("sunrise", .jstr a.sunrise), ("sunset", .jstr a.sunset),
         ("phaseName", .jstr a.phaseName), ("phaseIcon", .jstr a.phaseIcon),
         ("_date", .jstr a.date)]

/-- The JSON value of one tide event inside the stored `raw` buckets. -/
def TideEvent.toJson (e : TideEvent) : Json :=
  .jobj [("type", .jstr e.type), ("time", .jstr e.time),
         ("height", .jnum e.height), ("ymd", .jstr e.ymd)]

/-- The JSON value stored into `cache.tides2d` for a fetched record. -/
def TidesRec.toJson (t : TidesRec) : Json :=
  .jobj [("_date", .jstr t.date), ("todayKey", .jstr t.todayKey),
         ("tomorrowKey", .jstr t.tomorrowKey),
         ("todayItems", .jarr (t.todayItems.map .jstr)),
         ("tomorrowItems", .jarr (t.tomorrowItems.map .jstr)),
         ("raw", .jobj [("todayKey", .jstr t.todayKey),
                        ("tomorrowKey", .jstr t.tomorrowKey),
                        ("today", .jarr (t.rawToday.map TideEvent.toJson)),
                        ("tomorrow", .jarr (t.rawTomorrow.map TideEvent.toJson))])]

/-- The hard-coded weather fallback applied to the render variable when its
cache entry is still falsy after the fetch phase. -/
def weatherPlaceholder : Json :=
  .jobj [("c", .jnum 0), ("f", .jnum 32), ("kmh", .jnum 0), ("mph", .jnum 0),
         ("winddir", .jnum 0), ("icon", .jstr "clear-day")]

/-- The hard-coded astronomy fallback. -/
def astronomyPlaceholder : Json :=
  .jobj [("sunrise", .jstr "--:--"), ("sunset", .jstr "--:--"),
         ("phaseName", .jstr "—"), ("phaseIcon", .jstr "full-moon")]

/-- The hard-coded tide fallback; its keys are today's date and the date one
day ahead. -/
def tidesPlaceholder (todayKey tomorrowKey : String) : Json :=
  .jobj [("todayItems", .jarr [.jstr "—"]), ("tomorrowItems", .jarr [.jstr "—"]),
         ("raw", .jobj [("today", .jarr []), ("tomorrow", .jarr [])]),
         ("todayKey", .jstr todayKey), ("tomorrowKey", .jstr tomorrowKey)]

/-- JavaScript `if (!v) v = d` on the render variable holding an optional JSON
value: a falsy or absent value is replaced by the placeholder. -/
def orDefault (v : Option Json) (d : Json) : Json :=
  match v with
  | some j => if truthy j then j else d
  | none => d

/-- One invocation's external inputs: the clock readings, the force flags and
credentials from the environment, and the three upstream responses.  An outer
`none` on a response models the `fetch` call throwing.  `ymdOf` and
`fmtTimeF` stand for the time-zone-aware Clock collaborators. -/
structure RunInput where
  h : ℕ
  today : String
  tomorrowKey : String
  forceAstronomy : Bool
  forceTides : Bool
  weatherapiKey : Option String
  stormglassKey : Option String
  weatherResp : Option WeatherResp
  astroResp : Option AstroResp
  tidesResp : Option (Option (List RawTide))
  ts : String
  ymdOf : String → String
  fmtTimeF : String → String

/-- The astronomy fetch as the orchestrator sees it: `some none` is a `null`
return (missing credential, no request made), an outer `none` is a thrown
network error, `some (some a)` a normalized record whose day-stamp is today. -/
def fetchAstronomyRun (key : Option String) (resp : Option AstroResp) (today : String) :
    Option (Option AstronomyRec) :=
  if keyPresent key then
    match resp with
    | some r => some (some (fetchAstronomyCore r today))
    | none => none
  else some none

/-- The tide fetch as the orchestrator sees it, with the same outer shape as
`fetchAstronomyRun`.  The fetcher's `todayKey` is the local date of the
midnight the window starts at, i.e. today's date. -/
def fetchTidesRun (key : Option String) (resp : Option (Option (List RawTide)))
    (todayKey tomorrowKey : String) (ymdOf fmtTimeF : String → String) :
    Option (Option TidesRec) :=
  if keyPresent key then
    match resp with
    | some data => some (fetchTides2Days key data todayKey tomorrowKey ymdOf fmtTimeF)
    | none => none
  else some none

/-- What one run leaves behind: the store passed to `writeCache`, the three
render variables after the fallback step, and the number of outbound
requests made per source. -/
structure RunResult where
  cache : CacheStore
  weatherShown : Json
  astronomyShown : Json
  tidesShown : Json
  weatherRequests : ℕ
  astronomyRequests : ℕ
  tidesRequests : ℕ

/-- One orchestrator run over an already-read cache store: evaluate each
policy against the store as read (each policy only consults its own key),
fetch on true inside a swallow-all catch, merge successful non-null results
into the matching key only, then apply the render fallbacks to the local
variables — not to the store — and persist the store. -/
def runOnce (inp : RunInput) (c0 : CacheStore) : RunResult :=
  let wPol := shouldFetchWeather inp.h c0
  let wEntry :=
    if wPol then
      match inp.weatherResp with
      | some r => some ((fetchWeather r inp.ts).toJson)
      | none => c0.weather
    else c0.weather
  let aPol := shouldFetchAstronomy inp.forceAstronomy inp.h inp.today c0
  let aEntry :=
    if aPol then
      match fetchAstronomyRun inp.weatherapiKey inp.astroResp inp.today with
      | some (some a) => some a.toJson
      | _ => c0.astronomy
    else c0.astronomy
  let tPol := shouldFetchTides2D inp.forceTides inp.h inp.today c0
  let tEntry :=
    if tPol then
      match fetchTidesRun inp.stormglassKey inp.tidesResp inp.today inp.tomorrowKey
          inp.ymdOf inp.fmtTimeF with
      | some (some t) => some t.toJson
      | _ => c0.tides2d
    else c0.tides2d
  { cache := { weather := wEntry, tides2d := tEntry, astronomy := aEntry },
    weatherShown := orDefault wEntry weatherPlaceholder,
    astronomyShown := orDefault aEntry astronomyPlaceholder,
    tidesShown := orDefault tEntry (tidesPlaceholder inp.today inp.tomorrowKey),
    weatherRequests := if wPol then 1 else 0,
    astronomyRequests := if aPol && keyPresent inp.weatherapiKey then 1 else 0,
    tidesRequests := if tPol && keyPresent inp.stormglassKey then 1 else 0 }

/-- A sample successful weather response, used by concrete scenarios. -/
def sampleWeather : WeatherResp :=
  { temperature := some 12, windspeed := some 10, winddirection := some 200,
    weathercode := some 2 }

/-- A sample successful astronomy response, used by concrete scenarios. -/
def sampleAstro : AstroResp :=
  { sunrise := some "06:30 AM", sunset := some "08:15 PM",
    moonPhase := some "Waxing Gibbous" }

/-- A warm cache store for 2025-06-01: every key holds a truthy record-shaped
object and the day-stamped keys carry today's date. -/
def storeWarm : CacheStore :=
  { weather := some (.jobj [("c", .jnum 12)]),
    tides2d := some (.jobj [("_date", .jstr "2025-06-01")]),
    astronomy := some (.jobj [("_date", .jstr "2025-06-01")]) }

/-- A concrete run at the quiet hour 23 on 2025-06-01 with no force flags,
both credentials present and all responses successful. -/
def inputQuiet : RunInput :=
  { h := 23, today := "2025-06-01", tomorrowKey := "2025-06-02",
    forceAstronomy := false, forceTides := false,
    weatherapiKey := some "A", stormglassKey := some "S",
    weatherResp := some sampleWeather, astroResp := some sampleAstro,
    tidesResp := some (some []), ts := "T",
    ymdOf := fun _ => "2025-06-01", fmtTimeF := fun s => s }

/-- A concrete run at the active hour 10 on 2025-06-01 with no force flags
and no credentials (the cold-start, keyless scenario). -/
def inputColdNoKeys : RunInput :=
  { h := 10, today := "2025-06-01", tomorrowKey := "2025-06-02",
    forceAstronomy := false, forceTides := false,
    weatherapiKey := none, stormglassKey := none,
    weatherResp := some sampleWeather, astroResp := none,
    tidesResp := none, ts := "T",
    ymdOf := fun _ => "2025-06-01", fmtTimeF := fun s => s }

/-- A concrete run at the active hour 10 on 2025-06-01 with no force flags,
both credentials present and all responses successful. -/
def inputActive : RunInput :=
  { h := 10, today := "2025-06-01", tomorrowKey := "2025-06-02",
    forceAstronomy := false, forceTides := false,
    weatherapiKey := some "A", stormglassKey := some "S",
    weatherResp := some sampleWeather, astroResp := some sampleAstro,
    tidesResp := some (some []), ts := "T",
    ymdOf := fun _ => "2025-06-01", fmtTimeF := fun s => s }

/-!
Theorems.  Helper lemmas come first; the claim theorems follow, one per
claim, each with a witness where the statement carries hypotheses.
-/

/-- C1: for every local hour outside [6,22] with a present weather cache
entry, `shouldFetchWeather` returns false; for every hour inside [6,22] it
returns true regardless of the cache entry; with an absent entry it returns
true at every hour. -/
theorem C1_shouldFetchWeather_window (h : ℕ) (c : CacheStore) :
    (h < 6 ∨ 22 < h → entryPresent c.weather = true → shouldFetchWeather h c = false)
    ∧ (6 ≤ h → h ≤ 22 → shouldFetchWeather h c = true)
    ∧ (entryPresent c.weather = false → shouldFetchWeather h c = true) := by
  refine ⟨fun hout hpres => ?_, fun h6 h22 => ?_, fun habs => ?_⟩
  · simp [shouldFetchWeather, withinActive, hpres]
    omega
  · simp [shouldFetchWeather, withinActive, h6, h22]
  · simp [shouldFetchWeather, withinActive, habs]

/-- C1 witness: hour 23 with a present entry is refused, hour 10 is accepted
regardless, and an absent entry is accepted at hour 23. -/
theorem C1_witness :
    shouldFetchWeather 23 { weather := some (.jobj []), tides2d := none, astronomy := none } = false
    ∧ shouldFetchWeather 10 { weather := some (.jobj []), tides2d := none, astronomy := none } = true
    ∧ shouldFetchWeather 23 { weather := none, tides2d := none, astronomy := none } = true := by
  refine ⟨?_, ?_, ?_⟩
  · exact (C1_shouldFetchWeather_window 23 _).1 (Or.inr (by omega)) rfl
  · exact (C1_shouldFetchWeather_window 10 _).2.1 (by omega) (by omega)
  · exact (C1_shouldFetchWeather_window 23 _).2.2 rfl

/-- C2: with force off, a present entry whose day-stamp equals today makes
the daily policies return false at every hour other than their pinned hour;
at the pinned hour (06 for astronomy, 02 for tides) a differing day-stamp
makes them return true; and force makes them return true at every hour for
every cache state. -/
theorem C2_daily_policies (force : Bool) (h : ℕ) (today d : String) (c : CacheStore) :
    (entryPresent c.astronomy = true →
      jsonField c.astronomy "_date" = some (.jstr today) → h ≠ 6 →
      shouldFetchAstronomy false h today c = false)
    ∧ (entryPresent c.astronomy = true →
      jsonField c.astronomy "_date" = some (.jstr d) → d ≠ today →
      shouldFetchAstronomy force 6 today c = true)
    ∧ (shouldFetchAstronomy true h today c = true)
    ∧ (entryPresent c.tides2d = true →
      jsonField c.tides2d "_date" = some (.jstr today) → h ≠ 2 →
      shouldFetchTides2D false h today c = false)
    ∧ (entryPresent c.tides2d = true →
      jsonField c.tides2d "_date" = some (.jstr d) → d ≠ today →
      shouldFetchTides2D force 2 today c = true)
    ∧ (shouldFetchTides2D true h today c = true) := by
  refine ⟨fun hp hd _ => ?_, fun hp hd hne => ?_, ?_, fun hp hd _ => ?_,
    fun hp hd hne => ?_, ?_⟩
  · simp [shouldFetchAstronomy, hp, hd, strictNeStr]
  · cases force <;> simp [shouldFetchAstronomy, hp, hd, strictNeStr, bne_iff_ne, hne]
  · simp [shouldFetchAstronomy]
  · simp [shouldFetchTides2D, hp, hd, strictNeStr]
  · cases force <;> simp [shouldFetchTides2D, hp, hd, strictNeStr, bne_iff_ne, hne]
  · simp [shouldFetchTides2D]

/-- C2 witness: the six policy cases at concrete stores, hours and dates. -/
theorem C2_witness :
    shouldFetchAstronomy false 7 "2025-06-02"
      { weather := none, tides2d := none,
        astronomy := some (.jobj [("_date", .jstr "2025-06-02")]) } = false
    ∧ shouldFetchAstronomy false 6 "2025-06-02"
      { weather := none, tides2d := none,
        astronomy := some (.jobj [("_date", .jstr "2025-06-01")]) } = true
    ∧ shouldFetchAstronomy true 3 "2025-06-02"
      { weather := none, tides2d := none, astronomy := none } = true
    ∧ shouldFetchTides2D false 7 "2025-06-02"
      { weather := none, astronomy := none,
        tides2d := some (.jobj [("_date", .jstr "2025-06-02")]) } = false
    ∧ shouldFetchTides2D false 2 "2025-06-02"
      { weather := none, astronomy := none,
        tides2d := some (.jobj [("_date", .jstr "2025-06-01")]) } = true
    ∧ shouldFetchTides2D true 3 "2025-06-02"
      { weather := none, tides2d := none, astronomy := none } = true := by
  refine ⟨?_, ?_, ?_, ?_, ?_, ?_⟩
  · exact (C2_daily_policies false 7 "2025-06-02" "2025-06-02" _).1 rfl rfl (by omega)
  · exact (C2_daily_policies false 6 "2025-06-02" "2025-06-01" _).2.1 rfl rfl (by decide)
  · exact (C2_daily_policies true 3 "2025-06-02" "x" _).2.2.1
  · exact (C2_daily_policies false 7 "2025-06-02" "2025-06-02" _).2.2.2.1 rfl rfl (by omega)
  · exact (C2_daily_policies false 2 "2025-06-02" "2025-06-01" _).2.2.2.2.1 rfl rfl (by decide)
  · exact (C2_daily_policies true 3 "2025-06-02" "x" _).2.2.2.2.2

/-- C8 counterexample: a cache file whose `weather` key holds the number `7`
— a shape mismatch — is treated as a present entry, not as absent: at hour
23 the weather policy returns false, exactly as for a real cached record. -/
theorem C8_counterexample :
    entryPresent (readCache (some (.jobj [("weather", .jnum 7)]))).weather = true
    ∧ shouldFetchWeather 23 (readCache (some (.jobj [("weather", .jnum 7)]))) = false := by
  exact ⟨rfl, rfl⟩

/-- C8 amended: a missing or malformed cache file reads as the all-absent
store; a key that is missing or holds a falsy value is treated as absent by
every policy (each returns true, seeding the source); but a truthy value of
any shape counts as present — shapes are not validated. -/
theorem C8_amended_read_absent :
    (readCache none =
      { weather := some .jnull, tides2d := some .jnull, astronomy := some .jnull })
    ∧ (∀ h c, entryPresent c.weather = false → shouldFetchWeather h c = true)
    ∧ (∀ force h today c, entryPresent c.astronomy = false →
        shouldFetchAstronomy force h today c = true)
    ∧ (∀ force h today c, entryPresent c.tides2d = false →
        shouldFetchTides2D force h today c = true) := by
  refine ⟨rfl, fun h c hw => ?_, fun force h today c ha => ?_, fun force h today c ht => ?_⟩
  · simp [shouldFetchWeather, hw]
  · cases force <;> simp [shouldFetchAstronomy, ha]
  · cases force <;> simp [shouldFetchTides2D, ht]

/-- C8 witness: the all-absent read, and one seeding policy call per source
on a store whose keys are explicit nulls. -/
theorem C8_witness :
    (readCache none =
      { weather := some .jnull, tides2d := some .jnull, astronomy := some .jnull })
    ∧ shouldFetchWeather 23 (readCache none) = true
    ∧ shouldFetchAstronomy false 3 "2025-06-02" (readCache none) = true
    ∧ shouldFetchTides2D false 3 "2025-06-02" (readCache none) = true := by
  refine ⟨C8_amended_read_absent.1, ?_, ?_, ?_⟩
  · exact C8_amended_read_absent.2.1 23 _ rfl
  · exact C8_amended_read_absent.2.2.1 false 3 "2025-06-02" _ rfl
  · exact C8_amended_read_absent.2.2.2 false 3 "2025-06-02" _ rfl

/-- C6 counterexample: for a raw wind speed of 8.6 km/h the fetcher yields
6 mph (it first rounds 8.6 to 9, then converts), while rounding after a
conversion of the unrounded speed would yield 5 mph — so rounding is not
performed only after the unit conversion. -/
theorem C6_counterexample :
    (fetchWeather
        { temperature := some 0, windspeed := some (43 / 5),
          winddirection := some 0, weathercode := none } "t").mph = 6
    ∧ jsRound ((43 / 5 : ℚ) * (621371 / 1000000)) = 5 := by
  have h9 : jsRound (43 / 5 : ℚ) = 9 := by
    rw [jsRound, Int.floor_eq_iff]
    norm_num
  constructor
  · have hm : (fetchWeather
        { temperature := some 0, windspeed := some (43 / 5),
          winddirection := some 0, weathercode := none } "t").mph =
        jsRound ((jsRound (43 / 5 : ℚ) : ℚ) * (621371 / 1000000)) := rfl
    rw [hm, h9]
    rw [jsRound, Int.floor_eq_iff]
    norm_num
  · rw [jsRound, Int.floor_eq_iff]
    norm_num

/-- C6 amended: the fetcher rounds each raw quantity first and converts the
already-rounded value, rounding again afterwards: `c = round(raw °C)`,
`f = round(c·9/5 + 32)`, `kmh = round(raw km/h)`, `mph = round(kmh·0.621371)`
— so `mph` derives from the rounded km/h speed, not the unrounded one. -/
theorem C6_amended_rounding (resp : WeatherResp) (ts : String) :
    (fetchWeather resp ts).c = jsRound (resp.temperature.getD 0)
    ∧ (fetchWeather resp ts).f =
        jsRound ((jsRound (resp.temperature.getD 0) : ℚ) * 9 / 5 + 32)
    ∧ (fetchWeather resp ts).kmh = jsRound (resp.windspeed.getD 0)
    ∧ (fetchWeather resp ts).mph =
        jsRound ((jsRound (resp.windspeed.getD 0) : ℚ) * (621371 / 1000000)) :=
  ⟨rfl, rfl, rfl, rfl⟩

/-- C9 counterexample: a raw wind direction of 359.7° rounds to 360, so the
weather record's `winddir` is not always within 0–359. -/
theorem C9_counterexample :
    (fetchWeather
        { temperature := some 0, windspeed := some 0,
          winddirection := some (3597 / 10), weathercode := none } "t").winddir = 360 := by
  show jsRound (3597 / 10) = 360
  rw [jsRound, Int.floor_eq_iff]
  norm_num

/-- C9 amended: `winddir` is the rounding of the raw direction, so it lies in
0–359 exactly when the raw value lies in [0, 359.5); raw values of 359.5° and
above (which the upstream may return, e.g. 359.7°) produce 360. -/
theorem C9_amended_winddir_range (resp : WeatherResp) (ts : String) (q : ℚ)
    (hq : resp.winddirection = some q) (h0 : 0 ≤ q) (h1 : q < 719 / 2) :
    0 ≤ (fetchWeather resp ts).winddir ∧ (fetchWeather resp ts).winddir ≤ 359 := by
  have hd : (fetchWeather resp ts).winddir = jsRound q := by
    simp [fetchWeather, hq]
  rw [hd]
  constructor
  · exact Int.le_floor.mpr (by push_cast; linarith)
  · have h2 : jsRound q < 360 := by
      rw [jsRound, Int.floor_lt]
      push_cast
      linarith
    omega

/-- C9 witness: a raw direction of 100° gives a `winddir` within 0–359. -/
theorem C9_witness :
    0 ≤ (fetchWeather
        { temperature := some 0, windspeed := some 0,
          winddirection := some 100, weathercode := none } "t").winddir
    ∧ (fetchWeather
        { temperature := some 0, windspeed := some 0,
          winddirection := some 100, weathercode := none } "t").winddir ≤ 359 :=
  C9_amended_winddir_range _ "t" 100 rfl (by norm_num) (by norm_num)

/-- The bucketing loop partitions the event list: the today bucket is exactly
the events of the today key, the tomorrow bucket exactly the remaining events
of the tomorrow key, both in input order. -/
theorem bucketTides_eq (ta tb : String) (l : List TideEvent) :
    bucketTides ta tb l =
      (l.filter (fun e => e.ymd == ta),
       l.filter (fun e => !(e.ymd == ta) && (e.ymd == tb))) := by
  have go : ∀ (l : List TideEvent) (acc : List TideEvent × List TideEvent),
      l.foldl (fun acc e =>
        if e.ymd == ta then (acc.1 ++ [e], acc.2)
        else if e.ymd == tb then (acc.1, acc.2 ++ [e])
        else acc) acc =
      (acc.1 ++ l.filter (fun e => e.ymd == ta),
       acc.2 ++ l.filter (fun e => !(e.ymd == ta) && (e.ymd == tb))) := by
    intro l
    induction l with
    | nil => intro acc; simp
    | cons e l ih =>
        intro acc
        simp only [List.foldl_cons]
        split
        · rename_i h1
          rw [ih]
          simp [List.filter_cons, h1, List.append_assoc]
        · rename_i h1
          split
          · rename_i h2
            rw [ih]
            simp [List.filter_cons, h1, h2, List.append_assoc]
          · rename_i h2
            rw [ih]
            simp [List.filter_cons, h1, h2]
  simpa [bucketTides] using go l ([], [])

/-- Inserting an event keeps the multiset of events. -/
theorem insertTide_perm (epochOf : String → ℤ) (e : TideEvent) (l : List TideEvent) :
    (insertTide epochOf e l).Perm (e :: l) := by
  induction l with
  | nil => simp [insertTide]
  | cons x xs ih =>
      simp only [insertTide]
      split
      · exact (ih.cons x).trans (List.Perm.swap e x xs)
      · exact List.Perm.refl _

/-- Inserting an event into a sorted list keeps it sorted. -/
theorem insertTide_sorted (epochOf : String → ℤ) (e : TideEvent) (l : List TideEvent)
    (hl : l.Sorted (tideLE epochOf)) :
    (insertTide epochOf e l).Sorted (tideLE epochOf) := by
  induction l with
  | nil => simp [insertTide]
  | cons x xs ih =>
      rw [List.sorted_cons] at hl
      obtain ⟨hx, hxs⟩ := hl
      simp only [insertTide]
      split
      · rename_i hle
        rw [List.sorted_cons]
        refine ⟨fun b hb => ?_, ih hxs⟩
        rcases List.mem_cons.mp ((insertTide_perm epochOf e xs).mem_iff.mp hb) with rfl | hbxs
        · exact hle
        · exact hx b hbxs
      · rename_i hgt
        rw [List.sorted_cons]
        constructor
        · intro b hb
          rcases List.mem_cons.mp hb with rfl | hbxs
          · exact le_of_lt (lt_of_not_le hgt)
          · exact le_trans (le_of_lt (lt_of_not_le hgt)) (hx b hbxs)
        · exact List.sorted_cons.mpr ⟨hx, hxs⟩

/-- The stable sort is a permutation of its input. -/
theorem sortTides_perm (epochOf : String → ℤ) (l : List TideEvent) :
    (sortTides epochOf l).Perm l := by
  have go : ∀ (l acc : List TideEvent),
      (l.foldl (fun acc e => insertTide epochOf e acc) acc).Perm (acc ++ l) := by
    intro l
    induction l with
    | nil => intro acc; simp
    | cons e l ih =>
        intro acc
        refine (ih (insertTide epochOf e acc)).trans ?_
        refine ((insertTide_perm epochOf e acc).append_right l).trans ?_
        simpa using (List.perm_middle.symm : (e :: (acc ++ l)).Perm (acc ++ e :: l))
  simpa [sortTides] using go l []

/-- The stable sort sorts: its output is ascending in the epoch order. -/
theorem sortTides_sorted (epochOf : String → ℤ) (l : List TideEvent) :
    (sortTides epochOf l).Sorted (tideLE epochOf) := by
  have go : ∀ (l acc : List TideEvent), acc.Sorted (tideLE epochOf) →
      (l.foldl (fun acc e => insertTide epochOf e acc) acc).Sorted (tideLE epochOf) := by
    intro l
    induction l with
    | nil => intro acc h; simpa using h
    | cons e l ih => intro acc h; exact ih _ (insertTide_sorted epochOf e acc h)
  exact go l [] (by simp)

/-- A prefix of a sorted list is sorted. -/
theorem sorted_take {r : TideEvent → TideEvent → Prop} (l : List TideEvent) (n : ℕ)
    (h : l.Sorted r) : (l.take n).Sorted r :=
  h.sublist (List.take_sublist n l)

/-- Filtering on the tomorrow key alone agrees with the bucketing loop's
else-if filter whenever the two keys differ. -/
theorem filter_tomorrow_eq (ta tb : String) (hne : ta ≠ tb) (l : List TideEvent) :
    l.filter (fun e => !(e.ymd == ta) && (e.ymd == tb)) =
      l.filter (fun e => e.ymd == tb) := by
  apply List.filter_congr
  intro x _
  cases hta : (x.ymd == ta) with
  | false => simp [hta]
  | true =>
      cases hx : (x.ymd == tb) with
      | false => simp [hta, hx]
      | true => exact absurd ((eq_of_beq hta).symm.trans (eq_of_beq hx)) hne

/-- C4 counterexample: with five same-day events in the response, the first
draft's `fetchTides2Days` keeps all five in the today bucket — the bucket is
not capped at four events (nor sorted). -/
theorem C4_counterexample :
    (fetchTides2Days (some "k")
        (some [{ type := "high", time := "t1", height := some 1 },
               { type := "low", time := "t2", height := some 1 },
               { type := "high", time := "t3", height := some 1 },
               { type := "low", time := "t4", height := some 1 },
               { type := "high", time := "t5", height := some 1 }])
        "D0" "D1" (fun _ => "D0") (fun s => s)).map
      (fun r => r.rawToday.length) = some 5 := rfl

/-- C4 amended: in the second draft's `fetchTides2DaysV2` each bucket is
exactly the events of its own local day, sorted ascending by event epoch and
capped at 4, and the display items are the formatted capped buckets; the
first draft's `fetchTides2Days` partitions the events exactly the same way
but keeps them in response order, neither sorted nor capped. -/
theorem C4_amended_buckets (key : Option String) (data : Option (List RawTide))
    (ta tb : String) (ymdOf fmtTimeF : String → String) (epochOf : String → ℤ)
    (hk : keyPresent key = true) (hne : ta ≠ tb) :
    (∃ rec, fetchTides2DaysV2 key data ta tb ymdOf fmtTimeF epochOf = some rec ∧
      (∃ s : List TideEvent, s.Perm ((mkEvents data ymdOf).filter (fun e => e.ymd == ta)) ∧
        s.Sorted (tideLE epochOf) ∧ rec.rawToday = s.take 4) ∧
      (∃ s : List TideEvent, s.Perm ((mkEvents data ymdOf).filter (fun e => e.ymd == tb)) ∧
        s.Sorted (tideLE epochOf) ∧ rec.rawTomorrow = s.take 4) ∧
      rec.rawToday.Sorted (tideLE epochOf) ∧ rec.rawTomorrow.Sorted (tideLE epochOf) ∧
      rec.rawToday.length ≤ 4 ∧ rec.rawTomorrow.length ≤ 4 ∧
      rec.todayItems = rec.rawToday.map (fmtRow fmtTimeF) ∧
      rec.tomorrowItems = rec.rawTomorrow.map (fmtRow fmtTimeF))
    ∧ (∃ rec, fetchTides2Days key data ta tb ymdOf fmtTimeF = some rec ∧
      rec.rawToday = (mkEvents data ymdOf).filter (fun e => e.ymd == ta) ∧
      rec.rawTomorrow =
        (mkEvents data ymdOf).filter (fun e => !(e.ymd == ta) && (e.ymd == tb))) := by
  have h1 : (bucketTides ta tb (mkEvents data ymdOf)).1 =
      (mkEvents data ymdOf).filter (fun e => e.ymd == ta) := by
    rw [bucketTides_eq]
  have h2 : (bucketTides ta tb (mkEvents data ymdOf)).2 =
      (mkEvents data ymdOf).filter (fun e => e.ymd == tb) := by
    rw [bucketTides_eq]
    exact filter_tomorrow_eq ta tb hne _
  have hp2 : (bucketTides ta tb (mkEvents data ymdOf)).2 =
      (mkEvents data ymdOf).filter (fun e => !(e.ymd == ta) && (e.ymd == tb)) := by
    rw [bucketTides_eq]
  constructor
  · refine ⟨TidesRec.mk ta ta tb
        (((sortTides epochOf (bucketTides ta tb (mkEvents data ymdOf)).1).take 4).map
          (fmtRow fmtTimeF))
        (((sortTides epochOf (bucketTides ta tb (mkEvents data ymdOf)).2).take 4).map
          (fmtRow fmtTimeF))
        ((sortTides epochOf (bucketTides ta tb (mkEvents data ymdOf)).1).take 4)
        ((sortTides epochOf (bucketTides ta tb (mkEvents data ymdOf)).2).take 4),
      ?_, ?_, ?_, ?_, ?_, ?_, ?_, rfl, rfl⟩
    · simp [fetchTides2DaysV2, hk]
    · exact ⟨sortTides epochOf (bucketTides ta tb (mkEvents data ymdOf)).1,
        h1 ▸ sortTides_perm epochOf _, sortTides_sorted epochOf _, rfl⟩
    · exact ⟨sortTides epochOf (bucketTides ta tb (mkEvents data ymdOf)).2,
        h2 ▸ sortTides_perm epochOf _, sortTides_sorted epochOf _, rfl⟩
    · exact sorted_take _ 4 (sortTides_sorted epochOf _)
    · exact sorted_take _ 4 (sortTides_sorted epochOf _)
    · exact List.length_take_le 4 _
    · exact List.length_take_le 4 _
  · exact ⟨TidesRec.mk ta ta tb
        ((bucketTides ta tb (mkEvents data ymdOf)).1.map (fmtRow fmtTimeF))
        ((bucketTides ta tb (mkEvents data ymdOf)).2.map (fmtRow fmtTimeF))
        ((bucketTides ta tb (mkEvents data ymdOf)).1)
        ((bucketTides ta tb (mkEvents data ymdOf)).2),
      by simp [fetchTides2Days, hk], h1, hp2⟩

/-- C4 witness: the first draft's exact partition at a concrete three-event
response whose events all fall on the today key. -/
theorem C4_witness :
    ∃ rec, fetchTides2Days (some "k")
        (some [{ type := "high", time := "a1", height := some 1 },
               { type := "low", time := "a2", height := some 2 },
               { type := "high", time := "a3", height := some 3 }])
        "D0" "D1" (fun _ => "D0") (fun s => s) = some rec ∧
      rec.rawToday = (mkEvents
        (some [{ type := "high", time := "a1", height := some 1 },
               { type := "low", time := "a2", height := some 2 },
               { type := "high", time := "a3", height := some 3 }])
        (fun _ => "D0")).filter (fun e => e.ymd == "D0") ∧
      rec.rawTomorrow = (mkEvents
        (some [{ type := "high", time := "a1", height := some 1 },
               { type := "low", time := "a2", height := some 2 },
               { type := "high", time := "a3", height := some 3 }])
        (fun _ => "D0")).filter (fun e => !(e.ymd == "D0") && (e.ymd == "D1")) :=
  (C4_amended_buckets (some "k") _ "D0" "D1" (fun _ => "D0") (fun s => s)
    (fun _ => 0) rfl (by decide)).2

/-- C5 counterexample: the tide fetcher performs exactly one outbound request
— there is no second, rolling-window request — and on a primary window with
zero events it immediately returns the empty-but-present record whose
day-stamp is the today key. -/
theorem C5_counterexample :
    tidesRequestCount (some "k") = 1
    ∧ ¬tidesRequestCount (some "k") = 2
    ∧ fetchTides2Days (some "k") (some []) "D0" "D1" (fun s => s) (fun s => s) =
        some { date := "D0", todayKey := "D0", tomorrowKey := "D1",
               todayItems := [], tomorrowItems := [], rawToday := [], rawTomorrow := [] } :=
  ⟨rfl, by decide, rfl⟩

/-- C5 amended: when the primary 48-hour window yields zero events or a
response without a usable data array, the fetcher does not retry: it has made
its single request and returns an explicit empty-but-present record whose
day-stamp is the (updated) today key. -/
theorem C5_amended_no_retry (key : Option String) (data : Option (List RawTide))
    (ta tb : String) (ymdOf fmtTimeF : String → String)
    (hk : keyPresent key = true) (hempty : data.getD [] = []) :
    tidesRequestCount key = 1
    ∧ fetchTides2Days key data ta tb ymdOf fmtTimeF =
        some { date := ta, todayKey := ta, tomorrowKey := tb,
               todayItems := [], tomorrowItems := [], rawToday := [], rawTomorrow := [] } := by
  constructor
  · simp [tidesRequestCount, hk]
  · simp [fetchTides2Days, hk, mkEvents, hempty, bucketTides]

/-- C5 witness: a response without a data array produces one request and the
empty-but-present record. -/
theorem C5_witness :
    tidesRequestCount (some "k") = 1
    ∧ fetchTides2Days (some "k") none "D2" "D3" (fun s => s) (fun s => s) =
        some { date := "D2", todayKey := "D2", tomorrowKey := "D3",
               todayItems := [], tomorrowItems := [], rawToday := [], rawTomorrow := [] } :=
  C5_amended_no_retry (some "k") none "D2" "D3" (fun s => s) (fun s => s) rfl rfl

/-- Unfolding lemma: the per-run request counters. -/
theorem runOnce_weatherRequests (inp : RunInput) (c0 : CacheStore) :
    (runOnce inp c0).weatherRequests =
      if shouldFetchWeather inp.h c0 then 1 else 0 := rfl

/-- Unfolding lemma: astronomy requests need a true policy and a credential. -/
theorem runOnce_astronomyRequests (inp : RunInput) (c0 : CacheStore) :
    (runOnce inp c0).astronomyRequests =
      if shouldFetchAstronomy inp.forceAstronomy inp.h inp.today c0
          && keyPresent inp.weatherapiKey then 1 else 0 := rfl

/-- Unfolding lemma: tide requests need a true policy and a credential. -/
theorem runOnce_tidesRequests (inp : RunInput) (c0 : CacheStore) :
    (runOnce inp c0).tidesRequests =
      if shouldFetchTides2D inp.forceTides inp.h inp.today c0
          && keyPresent inp.stormglassKey then 1 else 0 := rfl

/-- A false weather policy leaves the weather key exactly as read. -/
theorem runOnce_weather_frame (inp : RunInput) (c0 : CacheStore)
    (h : shouldFetchWeather inp.h c0 = false) :
    (runOnce inp c0).cache.weather = c0.weather := by
  simp [runOnce, h]

/-- A false astronomy policy leaves the astronomy key exactly as read. -/
theorem runOnce_astronomy_frame (inp : RunInput) (c0 : CacheStore)
    (h : shouldFetchAstronomy inp.forceAstronomy inp.h inp.today c0 = false) :
    (runOnce inp c0).cache.astronomy = c0.astronomy := by
  simp [runOnce, h]

/-- A false tide policy leaves the tides key exactly as read. -/
theorem runOnce_tides_frame (inp : RunInput) (c0 : CacheStore)
    (h : shouldFetchTides2D inp.forceTides inp.h inp.today c0 = false) :
    (runOnce inp c0).cache.tides2d = c0.tides2d := by
  simp [runOnce, h]

/-- The weather key after a run with a true policy and a successful fetch. -/
theorem runOnce_weather_fetched (inp : RunInput) (c0 : CacheStore) (r : WeatherResp)
    (hp : shouldFetchWeather inp.h c0 = true) (hr : inp.weatherResp = some r) :
    (runOnce inp c0).cache.weather = some (fetchWeather r inp.ts).toJson := by
  simp [runOnce, hp, hr]

/-- The astronomy key after a run with a true policy, a present credential
and a successful fetch. -/
theorem runOnce_astronomy_fetched (inp : RunInput) (c0 : CacheStore) (r : AstroResp)
    (hp : shouldFetchAstronomy inp.forceAstronomy inp.h inp.today c0 = true)
    (hk : keyPresent inp.weatherapiKey = true) (hr : inp.astroResp = some r) :
    (runOnce inp c0).cache.astronomy = some (fetchAstronomyCore r inp.today).toJson := by
  simp [runOnce, hp, fetchAstronomyRun, hk, hr]

/-- The tides key after a run with a true policy, a present credential and a
successful fetch. -/
theorem runOnce_tides_fetched (inp : RunInput) (c0 : CacheStore) (data : Option (List RawTide))
    (hp : shouldFetchTides2D inp.forceTides inp.h inp.today c0 = true)
    (hk : keyPresent inp.stormglassKey = true) (hr : inp.tidesResp = some data) :
    (runOnce inp c0).cache.tides2d =
      some (TidesRec.toJson
        (TidesRec.mk inp.today inp.today inp.tomorrowKey
          ((bucketTides inp.today inp.tomorrowKey (mkEvents data inp.ymdOf)).1.map
            (fmtRow inp.fmtTimeF))
          ((bucketTides inp.today inp.tomorrowKey (mkEvents data inp.ymdOf)).2.map
            (fmtRow inp.fmtTimeF))
          ((bucketTides inp.today inp.tomorrowKey (mkEvents data inp.ymdOf)).1)
          ((bucketTides inp.today inp.tomorrowKey (mkEvents data inp.ymdOf)).2))) := by
  simp [runOnce, hp, fetchTidesRun, hk, hr, fetchTides2Days]

/-- The stored astronomy JSON exposes the record day-stamp at `_date`. -/
theorem getField_astronomy_date (a : AstronomyRec) :
    getField a.toJson "_date" = some (.jstr a.date) := rfl

/-- The stored tides JSON exposes the record day-stamp at `_date`. -/
theorem getField_tides_date (t : TidesRec) :
    getField t.toJson "_date" = some (.jstr t.date) := rfl

/-- Stored weather records are truthy JSON objects. -/
theorem truthy_weather_toJson (w : WeatherRec) : truthy w.toJson = true := rfl

/-- Stored astronomy records are truthy JSON objects. -/
theorem truthy_astronomy_toJson (a : AstronomyRec) : truthy a.toJson = true := rfl

/-- Stored tide records are truthy JSON objects. -/
theorem truthy_tides_toJson (t : TidesRec) : truthy t.toJson = true := rfl

/-- The astronomy fetcher stamps the record with the current local date. -/
theorem fetchAstronomyCore_date (r : AstroResp) (today : String) :
    (fetchAstronomyCore r today).date = today := rfl

/-- C10: each fetch block assigns only its own cache key, so every source
whose policy returns false (force flags included in the policy) has its cache
entry persisted exactly as it was read. -/
theorem C10_frame (inp : RunInput) (c0 : CacheStore) :
    (shouldFetchWeather inp.h c0 = false →
      (runOnce inp c0).cache.weather = c0.weather)
    ∧ (shouldFetchAstronomy inp.forceAstronomy inp.h inp.today c0 = false →
      (runOnce inp c0).cache.astronomy = c0.astronomy)
    ∧ (shouldFetchTides2D inp.forceTides inp.h inp.today c0 = false →
      (runOnce inp c0).cache.tides2d = c0.tides2d) :=
  ⟨runOnce_weather_frame inp c0, runOnce_astronomy_frame inp c0,
   runOnce_tides_frame inp c0⟩

/-- C10 witness: at the quiet hour with a warm store every policy is false
and the whole persisted store equals the store as read. -/
theorem C10_witness :
    (runOnce inputQuiet storeWarm).cache.weather = storeWarm.weather
    ∧ (runOnce inputQuiet storeWarm).cache.astronomy = storeWarm.astronomy
    ∧ (runOnce inputQuiet storeWarm).cache.tides2d = storeWarm.tides2d :=
  ⟨(C10_frame inputQuiet storeWarm).1 rfl,
   (C10_frame inputQuiet storeWarm).2.1 rfl,
   (C10_frame inputQuiet storeWarm).2.2 rfl⟩

/-- C3 counterexample: after the cold-start run at the active hour with no
credentials, the persisted astronomy and tide entries are still the explicit
null read at start — falsy, hence absent — and in particular not the
placeholder records the claim says get persisted. -/
theorem C3_counterexample :
    (runOnce inputColdNoKeys (readCache none)).cache.astronomy = some .jnull
    ∧ (runOnce inputColdNoKeys (readCache none)).cache.tides2d = some .jnull
    ∧ entryPresent (runOnce inputColdNoKeys (readCache none)).cache.astronomy = false
    ∧ entryPresent (runOnce inputColdNoKeys (readCache none)).cache.tides2d = false
    ∧ (runOnce inputColdNoKeys (readCache none)).cache.astronomy ≠ some astronomyPlaceholder
    ∧ (runOnce inputColdNoKeys (readCache none)).cache.tides2d ≠
        some (tidesPlaceholder "2025-06-01" "2025-06-02") := by
  refine ⟨rfl, rfl, rfl, rfl, ?_, ?_⟩
  · intro h
    exact Json.noConfusion (Option.some.inj h)
  · intro h
    exact Json.noConfusion (Option.some.inj h)

/-- C3 amended: on a cold start (all cache keys null) in the active window
with both credentials absent and a successful weather response, the run makes
exactly one request (weather); the persisted store holds the real weather
record while the astronomy and tide keys stay the absent null they were read
as — the fixed placeholders are applied only to the rendered values, not to
the persisted store. -/
theorem C3_amended_cold_start (inp : RunInput) (r : WeatherResp)
    (hw : inp.weatherResp = some r)
    (hka : keyPresent inp.weatherapiKey = false)
    (hkt : keyPresent inp.stormglassKey = false)
    (hact : withinActive inp.h = true) :
    (runOnce inp (readCache none)).cache.weather = some (fetchWeather r inp.ts).toJson
    ∧ (runOnce inp (readCache none)).cache.astronomy = some .jnull
    ∧ (runOnce inp (readCache none)).cache.tides2d = some .jnull
    ∧ (runOnce inp (readCache none)).weatherShown = (fetchWeather r inp.ts).toJson
    ∧ (runOnce inp (readCache none)).astronomyShown = astronomyPlaceholder
    ∧ (runOnce inp (readCache none)).tidesShown =
        tidesPlaceholder inp.today inp.tomorrowKey
    ∧ (runOnce inp (readCache none)).weatherRequests = 1
    ∧ (runOnce inp (readCache none)).astronomyRequests = 0
    ∧ (runOnce inp (readCache none)).tidesRequests = 0 := by
  have hwPol : shouldFetchWeather inp.h (readCache none) = true := by
    simp [shouldFetchWeather, hact]
  have haPol : shouldFetchAstronomy inp.forceAstronomy inp.h inp.today (readCache none) = true := by
    cases hf : inp.forceAstronomy
    · simp [shouldFetchAstronomy, readCache, entryPresent, truthy]
    · simp [shouldFetchAstronomy]
  have htPol : shouldFetchTides2D inp.forceTides inp.h inp.today (readCache none) = true := by
    cases hf : inp.forceTides
    · simp [shouldFetchTides2D, readCache, entryPresent, truthy]
    · simp [shouldFetchTides2D]
  refine ⟨?_, ?_, ?_, ?_, ?_, ?_, ?_, ?_, ?_⟩
  · exact runOnce_weather_fetched inp (readCache none) r hwPol hw
  · simp [runOnce, haPol, fetchAstronomyRun, hka, readCache]
  · simp [runOnce, htPol, fetchTidesRun, hkt, readCache]
  · simp [runOnce, hwPol, hw, orDefault, truthy_weather_toJson]
  · simp [runOnce, haPol, fetchAstronomyRun, hka, readCache, orDefault, truthy]
  · simp [runOnce, htPol, fetchTidesRun, hkt, readCache, orDefault, truthy]
  · simp [runOnce_weatherRequests, hwPol]
  · simp [runOnce_astronomyRequests, hka]
  · simp [runOnce_tidesRequests, hkt]

/-- C3 witness: the cold keyless run at hour 10 with the sample weather
response persists a null astronomy entry while rendering the placeholders
and making a single weather request. -/
theorem C3_witness :
    (runOnce inputColdNoKeys (readCache none)).cache.weather =
      some (fetchWeather sampleWeather "T").toJson
    ∧ (runOnce inputColdNoKeys (readCache none)).astronomyShown = astronomyPlaceholder
    ∧ (runOnce inputColdNoKeys (readCache none)).tidesShown =
        tidesPlaceholder "2025-06-01" "2025-06-02"
    ∧ (runOnce inputColdNoKeys (readCache none)).weatherRequests = 1 :=
  ⟨(C3_amended_cold_start inputColdNoKeys sampleWeather rfl rfl rfl rfl).1,
   (C3_amended_cold_start inputColdNoKeys sampleWeather rfl rfl rfl rfl).2.2.2.2.1,
   (C3_amended_cold_start inputColdNoKeys sampleWeather rfl rfl rfl rfl).2.2.2.2.2.1,
   (C3_amended_cold_start inputColdNoKeys sampleWeather rfl rfl rfl rfl).2.2.2.2.2.2.1⟩

/-- C7 counterexample: at the active hour 10, after a first run in which all
three sources fetched successfully, the immediately repeated run still makes
one weather request (the active window refetches weather every cycle), so
the second run does not perform zero fetches. -/
theorem C7_counterexample :
    (runOnce inputActive (runOnce inputActive (readCache none)).cache).weatherRequests = 1
    ∧ (runOnce inputActive (runOnce inputActive (readCache none)).cache).astronomyRequests = 0
    ∧ (runOnce inputActive (runOnce inputActive (readCache none)).cache).tidesRequests = 0 :=
  ⟨rfl, rfl, rfl⟩

/-- C7 amended: re-running the orchestrator immediately (same hour, same day,
no force flags), after a first run that succeeded for every source it
attempted, performs zero additional astronomy and tide requests; the repeated
run's weather request count is zero exactly when the hour is outside the
active window, and one inside it (weather is refetched every cycle there). -/
theorem C7_amended_idempotence (inp : RunInput) (c0 : CacheStore)
    (hfa : inp.forceAstronomy = false) (hft : inp.forceTides = false)
    (hw : shouldFetchWeather inp.h c0 = true → inp.weatherResp.isSome = true)
    (ha : shouldFetchAstronomy inp.forceAstronomy inp.h inp.today c0 = true →
      keyPresent inp.weatherapiKey = true → inp.astroResp.isSome = true)
    (ht : shouldFetchTides2D inp.forceTides inp.h inp.today c0 = true →
      keyPresent inp.stormglassKey = true → inp.tidesResp.isSome = true) :
    (runOnce inp (runOnce inp c0).cache).astronomyRequests = 0
    ∧ (runOnce inp (runOnce inp c0).cache).tidesRequests = 0
    ∧ (withinActive inp.h = false →
        (runOnce inp (runOnce inp c0).cache).weatherRequests = 0)
    ∧ (withinActive inp.h = true →
        (runOnce inp (runOnce inp c0).cache).weatherRequests = 1) := by
  refine ⟨?_, ?_, ?_, ?_⟩
  · rw [runOnce_astronomyRequests]
    cases hkA : keyPresent inp.weatherapiKey with
    | false => simp
    | true =>
        cases hPol1 : shouldFetchAstronomy inp.forceAstronomy inp.h inp.today c0 with
        | false =>
            have hent := runOnce_astronomy_frame inp c0 hPol1
            have hPol2 : shouldFetchAstronomy inp.forceAstronomy inp.h inp.today
                (runOnce inp c0).cache = false := by
              rw [shouldFetchAstronomy, hent]
              rw [shouldFetchAstronomy] at hPol1
              exact hPol1
            simp [hPol2]
        | true =>
            obtain ⟨ar, har⟩ := Option.isSome_iff_exists.mp (ha hPol1 hkA)
            have hent := runOnce_astronomy_fetched inp c0 ar hPol1 hkA har
            have hPol2 : shouldFetchAstronomy inp.forceAstronomy inp.h inp.today
                (runOnce inp c0).cache = false := by
              rw [hfa]
              simp [shouldFetchAstronomy, hent, entryPresent, truthy_astronomy_toJson,
                jsonField, getField_astronomy_date, fetchAstronomyCore_date, strictNeStr]
            simp [hPol2]
  · rw [runOnce_tidesRequests]
    cases hkT : keyPresent inp.stormglassKey with
    | false => simp
    | true =>
        cases hPol1 : shouldFetchTides2D inp.forceTides inp.h inp.today c0 with
        | false =>
            have hent := runOnce_tides_frame inp c0 hPol1
            have hPol2 : shouldFetchTides2D inp.forceTides inp.h inp.today
                (runOnce inp c0).cache = false := by
              rw [shouldFetchTides2D, hent]
              rw [shouldFetchTides2D] at hPol1
              exact hPol1
            simp [hPol2]
        | true =>
            obtain ⟨data, hdata⟩ := Option.isSome_iff_exists.mp (ht hPol1 hkT)
            have hent := runOnce_tides_fetched inp c0 data hPol1 hkT hdata
            have hPol2 : shouldFetchTides2D inp.forceTides inp.h inp.today
                (runOnce inp c0).cache = false := by
              rw [hft]
              simp [shouldFetchTides2D, hent, entryPresent, truthy_tides_toJson,
                jsonField, getField_tides_date, strictNeStr]
            simp [hPol2]
  · intro hwin
    rw [runOnce_weatherRequests]
    cases hPol1 : shouldFetchWeather inp.h c0 with
    | false =>
        have hent := runOnce_weather_frame inp c0 hPol1
        have hpres : entryPresent c0.weather = true := by
          rw [shouldFetchWeather] at hPol1
          cases hp : entryPresent c0.weather
          · rw [hp] at hPol1
            simp [hwin] at hPol1
          · rfl
        simp [shouldFetchWeather, hwin, hent, hpres]
    | true =>
        obtain ⟨wr, hwr⟩ := Option.isSome_iff_exists.mp (hw hPol1)
        have hent := runOnce_weather_fetched inp c0 wr hPol1 hwr
        simp [shouldFetchWeather, hwin, hent, entryPresent, truthy_weather_toJson]
  · intro hwin
    rw [runOnce_weatherRequests]
    simp [shouldFetchWeather, hwin]

/-- C7 witness: at the quiet hour with the warm store every policy is false
on both runs, so the repeated run makes zero requests of any kind. -/
theorem C7_witness :
    (runOnce inputQuiet (runOnce inputQuiet storeWarm).cache).astronomyRequests = 0
    ∧ (runOnce inputQuiet (runOnce inputQuiet storeWarm).cache).tidesRequests = 0
    ∧ (runOnce inputQuiet (runOnce inputQuiet storeWarm).cache).weatherRequests = 0 :=
  ⟨(C7_amended_idempotence inputQuiet storeWarm rfl rfl (fun _ => rfl)
      (fun _ _ => rfl) (fun _ _ => rfl)).1,
   (C7_amended_idempotence inputQuiet storeWarm rfl rfl (fun _ => rfl)
      (fun _ _ => rfl) (fun _ _ => rfl)).2.1,
   (C7_amended_idempotence inputQuiet storeWarm rfl rfl (fun _ => rfl)
      (fun _ _ => rfl) (fun _ _ => rfl)).2.2.1 rfl⟩

end Poly
